import Mathlib

/-!
Shallow embedding of `src/optimum/tir/lang.py` (the `iree_cl` flag value
type, the `TirConfig` flag-set builder and the `TirTarget` enum), together
with proofs settling the specification claims about them.

Modelling conventions:
* Python runtime values that flow through flag positions/values are embedded
  as `PyVal` (`None`, `int`, `str`, tuples); `pyStr`/`pyRepr` model Python's
  `str()`/`repr()` on those values, and `pyTruthy` models Python truthiness.
* `iree_cl` defines `__hash__` (hashing `_id` only) but no `__eq__`, so
  Python equality on `iree_cl` objects is object identity.  Every flag that
  is ever inserted into the `_flags` set is a freshly constructed object, so
  `set.add` never finds an equal element and the set simply accumulates all
  inserted flags.  We therefore model `_flags` as a `List iree_cl` in
  insertion order.  CPython's iteration order over such a set is
  unspecified; theorems that depend on order either involve distinct sort
  positions (where `sorted` fully determines the order) or are stated in an
  order-robust form (permutations / disjunction over tie orders).
* `sorted(self._flags, key=lambda f: f.position)` is modelled by the stable
  insertion sort `sortByPos`.
* File writing in `save_ir` is modelled by returning the write event
  `(path, contents)` that would be performed (or `none` for no write);
  the read of the never-initialised `__slots__` attribute
  `_mlir_output_path` on a config on which `with_mlir_ir_output` was never
  called is an `AttributeError`, modelled via `Except.error`.
-/

/-- Embedded Python runtime values used as flag positions / values. -/
inductive PyVal where
  | none : PyVal
  | int : Int → PyVal
  | str : String → PyVal
  | tuple : List PyVal → PyVal

/-- Python truthiness (`bool(v)`) for the embedded values: `None` is falsy,
an `int` is truthy iff nonzero, a `str` iff nonempty, a tuple iff nonempty. -/
def pyTruthy : PyVal → Bool
  | PyVal.none => false
  | PyVal.int n => n != 0
  | PyVal.str s => s != ""
  | PyVal.tuple xs => !xs.isEmpty

mutual
/-- Python `repr()` on the embedded values (string quoting as in CPython;
escape sequences inside strings are not needed for any input used here). -/
def pyRepr : PyVal → String
  | PyVal.none => "None"
  | PyVal.int n => toString n
  | PyVal.str s => "'" ++ s ++ "'"
  | PyVal.tuple xs =>
      "(" ++ String.intercalate ", " (pyReprList xs)
          ++ (if xs.length == 1 then ",)" else ")")

/-- `repr()` of each element of a list (helper for tuples). -/
def pyReprList : List PyVal → List String
  | [] => []
  | x :: xs => pyRepr x :: pyReprList xs
end

/-- Python `str()` on the embedded values: the identity on strings, and
`repr`-like on everything else (`str(None) = "None"`, `str(5) = "5"`,
`str` of a tuple is its `repr`). -/
def pyStr : PyVal → String
  | PyVal.str s => s
  | v => pyRepr v

/-- Python `int()` applied to an embedded value.  The only values ever fed
to it by this module are already `int`s (the `enumerate` index); any other
value raises, modelled as an error. -/
def pyInt : PyVal → Except String Int
  | PyVal.int n => Except.ok n
  | PyVal.str _ => Except.error "ValueError: invalid literal for int()"
  | _ => Except.error "TypeError: int() argument"

/-- The `iree_cl` flag value type: `_position`, `_id`, `_value`
(`_value` defaults to `None` at the call sites that omit it). -/
structure iree_cl where
  position : Int
  id : String
  value : PyVal

/-- `iree_cl.from_sequence(parts)`: a pair `(position, id)` or a triplet
`(position, id, value)` builds a flag (position through `int()`, identifier
through `str()`, value kept as-is); any other arity raises a `ValueError`
naming the arity. -/
def iree_cl.from_sequence (parts : List PyVal) : Except String iree_cl :=
  match parts with
  | [p0, p1] =>
      match pyInt p0 with
      | Except.ok n => Except.ok ⟨n, pyStr p1, PyVal.none⟩
      | Except.error e => Except.error e
  | [p0, p1, p2] =>
      match pyInt p0 with
      | Except.ok n => Except.ok ⟨n, pyStr p1, p2⟩
      | Except.error e => Except.error e
  | _ =>
      Except.error ("Unable to create iree_cl from " ++ toString parts.length
        ++ " only pair and triplet are supported.")

/-- `iree_cl.__str__`: `f"{id}={value}"` when `self._value` is truthy
(the guard is `if self._value:`, i.e. Python truthiness, not an
`is not None` check), otherwise the identifier alone. -/
def iree_cl.str (f : iree_cl) : String :=
  if pyTruthy f.value then f.id ++ "=" ++ pyStr f.value else f.id

/-- Python's `enumerate` starting at a given index. -/
def enumerateFrom {α : Type} : Nat → List α → List (Nat × α)
  | _, [] => []
  | i, x :: xs => (i, x) :: enumerateFrom (i + 1) xs

/-- The body of `TirConfig.parse_flags`: map
`lambda f: iree_cl.from_sequence((f[0],) + f[1:])` over `enumerate(flags)`.
For the pair `f = (index, flag)` produced by `enumerate`, the expression
`(f[0],) + f[1:]` rebuilds exactly `(index, flag)`, so `from_sequence`
always receives that 2-tuple. -/
def parseAux : List (Nat × PyVal) → Except String (List iree_cl)
  | [] => Except.ok []
  | (i, f) :: rest =>
      match iree_cl.from_sequence [PyVal.int (Int.ofNat i), f] with
      | Except.ok cl =>
          match parseAux rest with
          | Except.ok cls => Except.ok (cl :: cls)
          | Except.error e => Except.error e
      | Except.error e => Except.error e

/-- `TirConfig` state: the `_flags` set (modelled as the insertion-ordered
list of all flags ever added, see the header comment on identity equality)
and the `_mlir_output_path` slot (`Option.none` models the slot never having
been assigned, which is the state after `__init__`). -/
structure TirConfig where
  flags : List iree_cl
  mlir_output_path : Option String

/-- `TirConfig.parse_flags(flags)` (the set constructor around the map is
modelled by keeping the list). -/
def TirConfig.parse_flags (flags : List PyVal) : Except String (List iree_cl) :=
  parseAux (enumerateFrom 0 flags)

/-- `TirConfig.__init__(flags)`: parse `flags` when it is truthy (a
non-empty list), otherwise start from the empty set.  `_mlir_output_path`
is never assigned. -/
def TirConfig.init (flags : Option (List PyVal)) : Except String TirConfig :=
  match flags with
  | Option.some fs =>
      if fs.isEmpty then Except.ok ⟨[], Option.none⟩
      else
        match TirConfig.parse_flags fs with
        | Except.ok parsed => Except.ok ⟨parsed, Option.none⟩
        | Except.error e => Except.error e
  | Option.none => Except.ok ⟨[], Option.none⟩

/-- `TirConfig()` with no flags argument. -/
def TirConfig.new : TirConfig := ⟨[], Option.none⟩

/-- `with_debug_flags`: adds `iree_cl(-1000, "--mlir-elide-elementsattrs-if-larger", 1)`
and `iree_cl(-1000, "--mlir-print-ir-before-all")` to the flag set. -/
def TirConfig.with_debug_flags (cfg : TirConfig) : TirConfig :=
  { cfg with
      flags := cfg.flags
        ++ [⟨-1000, "--mlir-elide-elementsattrs-if-larger", PyVal.int 1⟩,
            ⟨-1000, "--mlir-print-ir-before-all", PyVal.none⟩] }

/-- `with_cpu_target(target)`: `target` defaults to `None` and is replaced
by `"host"` when `None`; adds `iree_cl(-1, "--iree-llvm-target-cpu-features", target)`. -/
def TirConfig.with_cpu_target (cfg : TirConfig) (target : Option String) : TirConfig :=
  let t : String := match target with
    | Option.none => "host"
    | Option.some s => s
  { cfg with flags := cfg.flags ++ [⟨-1, "--iree-llvm-target-cpu-features", PyVal.str t⟩] }

/-- Python `target_sm.replace(".", "")`: removes every dot. -/
def replaceDotEmpty (s : String) : String :=
  String.mk (s.data.filter (fun c => c != '.'))

/-- `with_gpu_target(target_sm)`: adds
`iree_cl(-1, "--iree-hal-cuda-llvm-target-arch", f"sm_{target_sm.replace('.', '')}")`. -/
def TirConfig.with_gpu_target (cfg : TirConfig) (target_sm : String) : TirConfig :=
  { cfg with
      flags := cfg.flags
        ++ [⟨-1, "--iree-hal-cuda-llvm-target-arch",
             PyVal.str ("sm_" ++ replaceDotEmpty target_sm)⟩] }

/-- `with_mlir_ir_output(path)`: assigns the `_mlir_output_path` slot. -/
def TirConfig.with_mlir_ir_output (cfg : TirConfig) (path : String) : TirConfig :=
  { cfg with mlir_output_path := Option.some path }

/-- `save_ir(mlir_module)`: reading `self._mlir_output_path` on a config
whose slot was never assigned raises `AttributeError` (the class uses
`__slots__` and `__init__` does not initialise this slot); otherwise, when
the stored path is truthy the module text is written to it (modelled as the
returned write event `(path, contents)`), and nothing is written when it is
falsy. -/
def TirConfig.save_ir (cfg : TirConfig) (mlir_module : String) :
    Except String (Option (String × String)) :=
  match cfg.mlir_output_path with
  | Option.none => Except.error "AttributeError: _mlir_output_path"
  | Option.some p =>
      if p != "" then Except.ok (Option.some (p, mlir_module))
      else Except.ok Option.none

/-- `register_additional_parameters(name, value=None, index=-1)`: adds
`iree_cl(index, name, value)` to the flag set.  (Call sites pass the
defaults `PyVal.none` and `-1` explicitly.) -/
def TirConfig.register_additional_parameters (cfg : TirConfig)
    (name : String) (value : PyVal) (index : Int) : TirConfig :=
  { cfg with flags := cfg.flags ++ [⟨index, name, value⟩] }

/-- Stable insertion of a flag into a position-sorted list: the new flag
goes before the first element whose position is not strictly smaller, so an
element inserted later stays after earlier elements of equal position. -/
def insertPos (f : iree_cl) : List iree_cl → List iree_cl
  | [] => [f]
  | g :: gs => if g.position < f.position then g :: insertPos f gs else f :: g :: gs

/-- Stable sort of the flag list by ascending `position`, modelling
`sorted(self._flags, key=lambda f: f.position)`. -/
def sortByPos (l : List iree_cl) : List iree_cl :=
  l.foldr insertPos []

/-- `get_compiler_args`: `[str(flag) for flag in sorted(self._flags, key=lambda f: f.position)]`. -/
def TirConfig.get_compiler_args (cfg : TirConfig) : List String :=
  (sortByPos cfg.flags).map iree_cl.str

/-- The `TirTarget` enum. -/
inductive TirTarget where
  | INTERPRETED_CPU : TirTarget
  | COMPILED_CPU : TirTarget
  | COMPILED_GPU : TirTarget
  | COMPILED_CUDA : TirTarget
  | COMPILED_ROCM : TirTarget
deriving DecidableEq

/-- The string value of each `TirTarget` member (`TirTarget` mixes in
`str`, so each member carries this value and f-strings format it so). -/
def TirTarget.value : TirTarget → String
  | TirTarget.INTERPRETED_CPU => "vmvx"
  | TirTarget.COMPILED_CPU => "llvm-cpu"
  | TirTarget.COMPILED_GPU => "vulkan"
  | TirTarget.COMPILED_CUDA => "cuda"
  | TirTarget.COMPILED_ROCM => "rocm"

/-- `TirTarget.to_tf_compiler_value`: three supported members, everything
else raises `ValueError(f"Target {self} is not compatible with tf compiler.")`. -/
def TirTarget.to_tf_compiler_value : TirTarget → Except String String
  | TirTarget.INTERPRETED_CPU => Except.ok "iree_vmvx"
  | TirTarget.COMPILED_CPU => Except.ok "iree_llvmcpu"
  | TirTarget.COMPILED_GPU => Except.ok "iree_vulkan"
  | t => Except.error ("Target " ++ t.value ++ " is not compatible with tf compiler.")

/-- `TirTarget.to_driver`: total mapping with a `local-task` fallback. -/
def TirTarget.to_driver : TirTarget → String
  | TirTarget.COMPILED_CUDA => "cuda"
  | TirTarget.COMPILED_ROCM => "rocm"
  | TirTarget.COMPILED_GPU => "vulkan"
  | _ => "local-task"

/-! ## Sorting lemmas for `sortByPos` -/

lemma insertPos_perm (f : iree_cl) (l : List iree_cl) :
    (insertPos f l).Perm (f :: l) := by
  induction l with
  | nil => simp [insertPos]
  | cons g gs ih =>
      by_cases h : g.position < f.position
      · simp only [insertPos, if_pos h]
        exact (List.Perm.cons g ih).trans (List.Perm.swap f g gs)
      · simp [insertPos, if_neg h]

lemma insertPos_sorted (f : iree_cl) (l : List iree_cl)
    (hl : l.Pairwise (fun a b => a.position ≤ b.position)) :
    (insertPos f l).Pairwise (fun a b => a.position ≤ b.position) := by
  induction l with
  | nil => simp [insertPos]
  | cons g gs ih =>
      rcases List.pairwise_cons.mp hl with ⟨hg, hgs⟩
      by_cases h : g.position < f.position
      · simp only [insertPos, if_pos h]
        refine List.pairwise_cons.mpr ⟨?_, ih hgs⟩
        intro x hx
        rcases List.mem_cons.mp ((insertPos_perm f gs).mem_iff.mp hx) with hx | hx
        · subst hx; exact le_of_lt h
        · exact hg x hx
      · simp only [insertPos, if_neg h]
        refine List.pairwise_cons.mpr ⟨?_, hl⟩
        intro x hx
        rcases List.mem_cons.mp hx with hx | hx
        · subst hx; exact le_of_not_lt h
        · exact le_trans (le_of_not_lt h) (hg x hx)

lemma sortByPos_perm (l : List iree_cl) : (sortByPos l).Perm l := by
  induction l with
  | nil => simp [sortByPos]
  | cons f fs ih =>
      exact (insertPos_perm f (sortByPos fs)).trans (List.Perm.cons f ih)

lemma sortByPos_sorted (l : List iree_cl) :
    (sortByPos l).Pairwise (fun a b => a.position ≤ b.position) := by
  induction l with
  | nil => simp [sortByPos]
  | cons f fs ih => exact insertPos_sorted f _ ih

lemma foldr_insertPos_low (e p : iree_cl) (l : List iree_cl)
    (he : ∀ f ∈ l, e.position < f.position)
    (hp : ∀ f ∈ l, p.position < f.position) :
    l.foldr insertPos [e, p] = e :: p :: l.foldr insertPos [] := by
  induction l with
  | nil => rfl
  | cons x xs ih =>
      have hex : e.position < x.position := he x (List.mem_cons_self x xs)
      have hpx : p.position < x.position := hp x (List.mem_cons_self x xs)
      have ihe : ∀ f ∈ xs, e.position < f.position :=
        fun f hf => he f (List.mem_cons_of_mem x hf)
      have ihp : ∀ f ∈ xs, p.position < f.position :=
        fun f hf => hp f (List.mem_cons_of_mem x hf)
      show insertPos x (xs.foldr insertPos [e, p]) = _
      rw [ih ihe ihp]
      show insertPos x (e :: p :: xs.foldr insertPos []) = _
      simp [insertPos, hex, hpx]

lemma parseAux_strings (ss : List String) (k : Nat) :
    parseAux (enumerateFrom k (ss.map PyVal.str))
      = Except.ok ((enumerateFrom k ss).map
          (fun p => ⟨Int.ofNat p.1, p.2, PyVal.none⟩)) := by
  induction ss generalizing k with
  | nil => rfl
  | cons s rest ih =>
      simp [enumerateFrom, parseAux, iree_cl.from_sequence, pyInt, pyStr, ih]

/-! ## Claims -/

/-- C1, counterexample: calling `with_cpu_target` twice (same identifier
`--iree-llvm-target-cpu-features`) leaves TWO flags with that identifier in
the flag set, not one — `iree_cl` has no `__eq__`, so the set never dedupes
freshly constructed flags. -/
theorem C1_counterexample :
    (((TirConfig.new.with_cpu_target Option.none).with_cpu_target
        (Option.some "skylake-avx512")).flags.countP
      (fun f => f.id == "--iree-llvm-target-cpu-features")) = 2 ∧
    ¬ (((TirConfig.new.with_cpu_target Option.none).with_cpu_target
        (Option.some "skylake-avx512")).flags.countP
      (fun f => f.id == "--iree-llvm-target-cpu-features")) = 1 := by
  exact ⟨rfl, by decide⟩

/-- C1 (amended): adding a flag with an identifier already present never
replaces anything — each addition inserts a new flag, so after registering
the same identifier twice the flag set holds two more flags with that
identifier than before. -/
theorem C1_theorem (cfg : TirConfig) (n : String) (v₁ v₂ : PyVal) (i₁ i₂ : Int) :
    (((cfg.register_additional_parameters n v₁ i₁).register_additional_parameters
        n v₂ i₂).flags.countP (fun f => f.id == n))
      = cfg.flags.countP (fun f => f.id == n) + 2 := by
  simp [TirConfig.register_additional_parameters, List.countP_append,
    List.countP_cons]

/-- C2: on a fresh configuration (on which `with_mlir_ir_output` was never
called) `save_ir` raises `AttributeError` — the `_mlir_output_path` slot is
declared in `__slots__` but never initialised — rather than being a silent
no-op; once a path has been set, `save_ir` writes exactly the given text to
that path. -/
theorem C2_theorem :
    TirConfig.new.save_ir "module" = Except.error "AttributeError: _mlir_output_path" ∧
    (TirConfig.new.with_mlir_ir_output "out.mlir").save_ir "module"
      = Except.ok (Option.some ("out.mlir", "module")) :=
  ⟨rfl, rfl⟩

/-- C3: `register_additional_parameters` with the default position gives the
new flag position `-1`, which sorts BEFORE every flag with a nonnegative
position: with `TirConfig(["--a"])` (flag `--a` at position `0`), registering
`--b` renders `["--b", "--a"]`, not appended at the end as the claim (and the
method's own docstring) state. -/
theorem C3_theorem :
    TirConfig.init (Option.some [PyVal.str "--a"])
      = Except.ok ⟨[⟨0, "--a", PyVal.none⟩], Option.none⟩ ∧
    ((⟨[⟨0, "--a", PyVal.none⟩], Option.none⟩ : TirConfig).register_additional_parameters
        "--b" PyVal.none (-1)).get_compiler_args = ["--b", "--a"] :=
  ⟨rfl, rfl⟩

/-- C4, counterexample: parsing a list whose entry is the 2-element tuple
`("--a", "x")` yields a flag whose identifier is the stringified whole tuple
`"('--a', 'x')"` and whose value is `None` — not identifier `"--a"` with
value `"x"` as the claim states ( `parse_flags` passes the `enumerate` pair
`(index, entry)` itself to `from_sequence`, which stringifies the entry). -/
theorem C4_counterexample :
    TirConfig.parse_flags [PyVal.tuple [PyVal.str "--a", PyVal.str "x"]]
      = Except.ok [⟨0, "('--a', 'x')", PyVal.none⟩] ∧
    ("('--a', 'x')" : String) ≠ "--a" ∧
    ("('--a', 'x')" : String) ≠ "x" ∧
    PyVal.none ≠ PyVal.str "x" :=
  ⟨rfl, by decide, by decide, fun h => PyVal.noConfusion h⟩

/-- C4 (amended): parsing a list of flag STRINGS produces one flag per entry
with position equal to the entry's index, identifier equal to the string and
no value; and `iree_cl.from_sequence` on a 1-element or 4-element tuple
raises a `ValueError` naming the unsupported arity. -/
theorem C4_theorem (ss : List String) (parts : List PyVal)
    (h : parts.length = 1 ∨ parts.length = 4) :
    TirConfig.parse_flags (ss.map PyVal.str)
      = Except.ok ((enumerateFrom 0 ss).map
          (fun p => ⟨Int.ofNat p.1, p.2, PyVal.none⟩)) ∧
    iree_cl.from_sequence parts
      = Except.error ("Unable to create iree_cl from " ++ toString parts.length
          ++ " only pair and triplet are supported.") := by
  constructor
  · exact parseAux_strings ss 0
  · rcases h with h | h
    · rcases parts with _ | ⟨a, _ | ⟨b, tail⟩⟩
      · simp at h
      · rfl
      · simp [List.length_cons] at h
    · rcases parts with _ | ⟨a, _ | ⟨b, _ | ⟨c, _ | ⟨d, tail⟩⟩⟩⟩
      · simp at h
      · simp at h
      · simp at h
      · simp at h
      · rcases tail with _ | ⟨e, tail2⟩
        · rfl
        · simp [List.length_cons] at h

/-- C4, witness for the amended theorem at the concrete inputs
`["--a", "--b"]` (strings to parse) and the 1-element tuple `(7,)`. -/
theorem C4_witness :
    TirConfig.parse_flags (["--a", "--b"].map PyVal.str)
      = Except.ok ((enumerateFrom 0 ["--a", "--b"]).map
          (fun p => ⟨Int.ofNat p.1, p.2, PyVal.none⟩)) ∧
    iree_cl.from_sequence [PyVal.int 7]
      = Except.error ("Unable to create iree_cl from "
          ++ toString ([PyVal.int 7] : List PyVal).length
          ++ " only pair and triplet are supported.") :=
  C4_theorem ["--a", "--b"] [PyVal.int 7] (Or.inl rfl)

/-- C5, counterexample: a flag whose value is present but falsy does NOT
render as `identifier=value`: `iree_cl.__str__` tests `if self._value:`
(truthiness), so value `0` and value `""` both render the identifier alone. -/
theorem C5_counterexample :
    iree_cl.str ⟨0, "--a", PyVal.int 0⟩ = "--a" ∧
    iree_cl.str ⟨0, "--a", PyVal.int 0⟩ ≠ "--a=0" ∧
    iree_cl.str ⟨1, "--b", PyVal.str ""⟩ = "--b" :=
  ⟨rfl, by decide, rfl⟩

/-- C5 (amended): rendering returns the text representations of the flags
sorted ascending by stored position (a position-sorted permutation of the
flag set, each element rendered by `iree_cl.str`); a flag renders as
`identifier=value` exactly when its value is truthy, and renders as the
identifier alone when its value is falsy (`None`, `0`, or `""`). -/
theorem C5_theorem (cfg : TirConfig) :
    ∃ fs : List iree_cl,
      fs.Perm cfg.flags ∧
      fs.Pairwise (fun a b => a.position ≤ b.position) ∧
      cfg.get_compiler_args = fs.map iree_cl.str ∧
      ∀ f ∈ fs,
        (pyTruthy f.value = true → iree_cl.str f = f.id ++ "=" ++ pyStr f.value) ∧
        (pyTruthy f.value = false → iree_cl.str f = f.id) :=
  ⟨sortByPos cfg.flags, sortByPos_perm _, sortByPos_sorted _, rfl,
    fun f _ =>
      ⟨fun h => by simp [iree_cl.str, h], fun h => by simp [iree_cl.str, h]⟩⟩

/-- C6, counterexample: adding a flag at an explicit position below `-1000`
(here `register_additional_parameters("--z", index=-2000)`) makes it render
BEFORE the two debug flags, so the debug flags do not occupy the first two
positions for every sequence of other flag additions. -/
theorem C6_counterexample :
    ((TirConfig.new.with_debug_flags).register_additional_parameters
        "--z" PyVal.none (-2000)).get_compiler_args
      = ["--z", "--mlir-elide-elementsattrs-if-larger=1",
         "--mlir-print-ir-before-all"] ∧
    ("--z" : String) ≠ "--mlir-elide-elementsattrs-if-larger=1" ∧
    ("--z" : String) ≠ "--mlir-print-ir-before-all" :=
  ⟨rfl, by decide, by decide⟩

/-- C6 (amended): `with_debug_flags` inserts its two flags at position
`-1000`; provided every other flag in the configuration has position
strictly greater than `-1000`, the two debug flags occupy the first two
positions of the rendered argument list (in an unspecified relative order,
since they tie at the same position). -/
theorem C6_theorem (cfg : TirConfig)
    (h : ∀ f ∈ cfg.flags, -1000 < f.position) :
    ∃ rest : List String,
      (cfg.with_debug_flags).get_compiler_args
          = "--mlir-elide-elementsattrs-if-larger=1"
            :: "--mlir-print-ir-before-all" :: rest ∨
      (cfg.with_debug_flags).get_compiler_args
          = "--mlir-print-ir-before-all"
            :: "--mlir-elide-elementsattrs-if-larger=1" :: rest := by
  refine ⟨(sortByPos cfg.flags).map iree_cl.str, Or.inl ?_⟩
  have he : ∀ f ∈ cfg.flags,
      (iree_cl.mk (-1000) "--mlir-elide-elementsattrs-if-larger" (PyVal.int 1)).position
        < f.position := h
  have hp : ∀ f ∈ cfg.flags,
      (iree_cl.mk (-1000) "--mlir-print-ir-before-all" PyVal.none).position
        < f.position := h
  have hbase : ([iree_cl.mk (-1000) "--mlir-elide-elementsattrs-if-larger" (PyVal.int 1),
      iree_cl.mk (-1000) "--mlir-print-ir-before-all" PyVal.none] : List iree_cl).foldr
        insertPos []
      = [iree_cl.mk (-1000) "--mlir-elide-elementsattrs-if-larger" (PyVal.int 1),
         iree_cl.mk (-1000) "--mlir-print-ir-before-all" PyVal.none] := by
    norm_num [insertPos]
  have key : (cfg.with_debug_flags).flags.foldr insertPos []
      = iree_cl.mk (-1000) "--mlir-elide-elementsattrs-if-larger" (PyVal.int 1)
        :: iree_cl.mk (-1000) "--mlir-print-ir-before-all" PyVal.none
        :: cfg.flags.foldr insertPos [] := by
    show (cfg.flags
        ++ [iree_cl.mk (-1000) "--mlir-elide-elementsattrs-if-larger" (PyVal.int 1),
            iree_cl.mk (-1000) "--mlir-print-ir-before-all" PyVal.none]).foldr
          insertPos [] = _
    rw [List.foldr_append, hbase]
    exact foldr_insertPos_low _ _ _ he hp
  show ((cfg.with_debug_flags).flags.foldr insertPos []).map iree_cl.str = _
  rw [key]
  rfl

/-- C6, witness for the amended theorem on the fresh configuration (whose
flag set is empty, so the position hypothesis holds vacuously). -/
theorem C6_witness :
    ∃ rest : List String,
      (TirConfig.new.with_debug_flags).get_compiler_args
          = "--mlir-elide-elementsattrs-if-larger=1"
            :: "--mlir-print-ir-before-all" :: rest ∨
      (TirConfig.new.with_debug_flags).get_compiler_args
          = "--mlir-print-ir-before-all"
            :: "--mlir-elide-elementsattrs-if-larger=1" :: rest :=
  C6_theorem TirConfig.new (fun f hf => absurd hf (List.not_mem_nil f))

/-- C7: on a fresh configuration, `with_gpu_target("8.0")` renders exactly
`--iree-hal-cuda-llvm-target-arch=sm_80` (dots stripped, `sm_` prefix). -/
theorem C7_theorem :
    (TirConfig.new.with_gpu_target "8.0").get_compiler_args
      = ["--iree-hal-cuda-llvm-target-arch=sm_80"] := rfl

/-- C8: on a fresh configuration, `with_cpu_target()` with no argument
renders exactly `--iree-llvm-target-cpu-features=host`. -/
theorem C8_theorem :
    (TirConfig.new.with_cpu_target Option.none).get_compiler_args
      = ["--iree-llvm-target-cpu-features=host"] := rfl

/-- C9: `to_tf_compiler_value` returns `iree_vmvx` / `iree_llvmcpu` /
`iree_vulkan` for the three supported targets, and for `COMPILED_CUDA` and
`COMPILED_ROCM` raises the `ValueError` whose message names the incompatible
target (`"Target cuda ..."` / `"Target rocm ..."`, the member's string
value); it raises in exactly those two cases. -/
theorem C9_theorem :
    TirTarget.to_tf_compiler_value TirTarget.INTERPRETED_CPU = Except.ok "iree_vmvx" ∧
    TirTarget.to_tf_compiler_value TirTarget.COMPILED_CPU = Except.ok "iree_llvmcpu" ∧
    TirTarget.to_tf_compiler_value TirTarget.COMPILED_GPU = Except.ok "iree_vulkan" ∧
    TirTarget.to_tf_compiler_value TirTarget.COMPILED_CUDA
      = Except.error "Target cuda is not compatible with tf compiler." ∧
    TirTarget.to_tf_compiler_value TirTarget.COMPILED_ROCM
      = Except.error "Target rocm is not compatible with tf compiler." ∧
    ∀ t : TirTarget,
      (∃ msg : String, TirTarget.to_tf_compiler_value t = Except.error msg)
        ↔ (t = TirTarget.COMPILED_CUDA ∨ t = TirTarget.COMPILED_ROCM) := by
  refine ⟨rfl, rfl, rfl, rfl, rfl, ?_⟩
  intro t
  cases t <;> simp [TirTarget.to_tf_compiler_value]

/-- C10: `to_driver` is total (it returns a string for every variant, with a
fallback branch) and maps `COMPILED_CUDA ↦ cuda`, `COMPILED_ROCM ↦ rocm`,
`COMPILED_GPU ↦ vulkan`, and both CPU targets to `local-task`. -/
theorem C10_theorem :
    TirTarget.to_driver TirTarget.COMPILED_CUDA = "cuda" ∧
    TirTarget.to_driver TirTarget.COMPILED_ROCM = "rocm" ∧
    TirTarget.to_driver TirTarget.COMPILED_GPU = "vulkan" ∧
    TirTarget.to_driver TirTarget.INTERPRETED_CPU = "local-task" ∧
    TirTarget.to_driver TirTarget.COMPILED_CPU = "local-task" :=
  ⟨rfl, rfl, rfl, rfl, rfl⟩
